import Mathlib

/-!
Verification of the FreePBX call relay (`src/infra/freepbx-ami-relay.py`).

The relay's request handling is embedded shallowly: the pure data flow of
`generate_tts`, `originate_call`, `_cleanup_old_sounds` and `Handler.do_POST`
is reproduced as executable Lean functions.  External effects (the two
subprocess invocations, file writes, the rename, ownership changes, the
sweep's deletions) are reified as an explicit effect trace, and the points
at which the Python code can raise are driven by a `FailSpec` record: each
field states whether the corresponding operation raises.  The externally
visible state of the spool (pickup) directory is tracked as the sequence of
`Spool` snapshots a concurrent directory scan could observe.
-/

/-- Module-level constant `SPOOL_DIR` from the source. -/
def SPOOL_DIR : String := "/var/spool/asterisk/outgoing"

/-- Module-level constant `SOUNDS_DIR` from the source. -/
def SOUNDS_DIR : String := "/var/lib/asterisk/sounds/custom"

/-- Module-level constant `MAX_SOUND_AGE_SECS = 3600` from the source. -/
def MAX_SOUND_AGE_SECS : Int := 3600

/-- `uid = str(int(time.time() * 1000))` (line 70): the wall clock is modelled
in integer microseconds; `time.time() * 1000` truncated to an integer is then
microseconds divided by 1000. -/
def makeUid (clockMicros : Nat) : String := toString (clockMicros / 1000)

/-- A JSON scalar as `json.loads` can produce it for a dict value. -/
inductive JVal
  | jstr (s : String)
  | jint (n : Int)
  | jbool (b : Bool)
  | jnull
deriving DecidableEq, Repr

/-- Python `str()` applied to a JSON scalar. -/
def pyStr : JVal → String
  | .jstr s => s
  | .jint n => toString n
  | .jbool true => "True"
  | .jbool false => "False"
  | .jnull => "None"

/-- Python `str.strip()` with no argument: remove leading and trailing
whitespace.  (Defined by structural recursion over the character list so
that it evaluates inside the kernel.) -/
def pyStrip (s : String) : String :=
  ⟨((s.data.dropWhile Char.isWhitespace).reverse.dropWhile
      Char.isWhitespace).reverse⟩

/-- Python `dict.get(k, dflt)`: the default is used only when the key is
absent. -/
def dictGet (d : List (String × JVal)) (k : String) (dflt : JVal) : JVal :=
  match d.find? (fun p => p.1 == k) with
  | some p => p.2
  | none => dflt

/-- Which fallible operations of one request raise, and where.
`tmpWriteFailsAfter = some k` means the write of the call file raises after
`k` characters reached the temporary file; the two chown fields correspond to
the `shutil.chown` calls that the source wraps in `try/except`. -/
structure FailSpec where
  fliteFails : Bool
  soxFails : Bool
  removeRawFails : Bool
  chownFinalFails : Bool
  tmpWriteFailsAfter : Option Nat
  chownTmpFails : Bool
  renameFails : Bool
  scanFails : Bool
  removeFailAt : Option Nat
deriving DecidableEq, Repr

/-- A `FailSpec` in which nothing raises. -/
def FailSpec.allOk : FailSpec :=
  ⟨false, false, false, false, none, false, false, false, none⟩

/-- Completed external actions of one request, in order. -/
inductive Effect
  | fliteRun (message : String)
  | soxRun
  | rawRemoved
  | tmpWrite
  | renamed
  | sweepRun
deriving DecidableEq, Repr

/-- Contents of the two spool-directory names this request touches:
`akira-<uid>.call.tmp` and `akira-<uid>.call`.  `none` means the name is
absent from the directory. -/
structure Spool where
  tmpContent : Option String
  callContent : Option String
deriving DecidableEq, Repr

/-- The spool directory before the request: both names absent. -/
def Spool.empty : Spool := ⟨none, none⟩

/-- A directory entry of `SOUNDS_DIR` as the sweep observes it: name,
whether `os.path.isfile` holds, and `os.path.getmtime` in seconds. -/
structure FsEntry where
  name : String
  isFile : Bool
  mtime : Int
deriving DecidableEq, Repr

/-- Python `str.startswith`, by structural recursion over the character
lists so that it evaluates inside the kernel. -/
def pyStartsWith (s p : String) : Bool :=
  p.data.isPrefixOf s.data

/-- The deletion condition of `_cleanup_old_sounds` (lines 109-111):
recognized name, regular file, and age strictly greater than the maximum. -/
def shouldDelete (now : Int) (e : FsEntry) : Bool :=
  pyStartsWith e.name "akira-alert-" && e.isFile &&
    decide (now - e.mtime > MAX_SOUND_AGE_SECS)

/-- The sweep loop: names removed, in listing order.  `failAt = some k`
means the `(k+1)`-th `os.remove` raises; the exception aborts the whole loop
(the `try` wraps the `for`), so later entries are untouched this sweep. -/
def cleanupLoop (now : Int) : List FsEntry → Option Nat → List String
  | [], _ => []
  | e :: rest, failAt =>
    if shouldDelete now e then
      match failAt with
      | some 0 => []
      | some (k + 1) => e.name :: cleanupLoop now rest (some k)
      | none => e.name :: cleanupLoop now rest none
    else cleanupLoop now rest failAt

/-- `_cleanup_old_sounds` (lines 104-114): a failing `os.listdir` deletes
nothing; every exception is swallowed, so the function always returns. -/
def cleanup_old_sounds (now : Int) (entries : List FsEntry)
    (scanFails : Bool) (failAt : Option Nat) : List String :=
  if scanFails then [] else cleanupLoop now entries failAt

/-- `generate_tts` (lines 40-65): flite, then sox, then `os.remove(raw_path)`
— the remove is NOT inside a `try`, so its failure propagates — then a
best-effort chown.  Returns the sound name, plus the effect trace. -/
def generate_tts (message uid : String) (fs : FailSpec) :
    Except String String × List Effect :=
  if fs.fliteFails then (.error "flite failed", [])
  else if fs.soxFails then (.error "sox failed", [.fliteRun message])
  else if fs.removeRawFails then
    (.error "raw remove failed", [.fliteRun message, .soxRun])
  else (.ok ("akira-alert-" ++ uid), [.fliteRun message, .soxRun, .rawRemoved])

/-- The call-file text rendered at lines 79-87, as the one string the source
builds in memory. -/
def callFileContent (to_ trunk sound_name caller_id : String) : String :=
  "Channel: PJSIP/" ++ to_ ++ "@" ++ trunk ++ "\n" ++
  "Application: Playback\n" ++
  "Data: custom/" ++ sound_name ++ "\n" ++
  "MaxRetries: 2\n" ++
  "RetryTime: 30\n" ++
  "WaitTime: 45\n" ++
  "CallerID: " ++ caller_id ++ "\n"

/-- From the spec's artifact-format table: the seven `key: value` lines, in
order. -/
def specArtifactLines (to_ trunk sound_name caller_id : String) : List String :=
  ["Channel: PJSIP/" ++ to_ ++ "@" ++ trunk,
   "Application: Playback",
   "Data: custom/" ++ sound_name,
   "MaxRetries: 2",
   "RetryTime: 30",
   "WaitTime: 45",
   "CallerID: " ++ caller_id]

/-- Outcome of one `originate_call` run: the returned dict or the
propagated exception's message, the effect trace, the sequence of
spool-directory states a concurrent scan could observe, and the sound files
the sweep deleted. -/
structure OrigOut where
  result : Except String (List (String × String))
  effects : List Effect
  spoolTrace : List Spool
  deleted : List String
deriving Repr

/-- `originate_call` (lines 68-101), for a fixed `uid`: synthesis, render,
write to the `.tmp` name, best-effort chown, rename, sweep, result dict. -/
def originate_call (trunk caller_id to_ message uid : String) (fs : FailSpec)
    (sounds : List FsEntry) (now : Int) : OrigOut :=
  match generate_tts message uid fs with
  | (.error e, eff) => ⟨.error e, eff, [Spool.empty], []⟩
  | (.ok sound_name, eff) =>
    let call_file := SPOOL_DIR ++ "/akira-" ++ uid ++ ".call"
    let content := callFileContent to_ trunk sound_name caller_id
    match fs.tmpWriteFailsAfter with
    | some k =>
      ⟨.error "tmp write failed", eff,
       [Spool.empty, ⟨some (content.take k), none⟩], []⟩
    | none =>
      if fs.renameFails then
        ⟨.error "rename failed", eff ++ [.tmpWrite],
         [Spool.empty, ⟨some content, none⟩], []⟩
      else
        ⟨.ok [("status", "ok"), ("to", to_), ("sound", sound_name),
              ("call_file", call_file)],
         eff ++ [.tmpWrite, .renamed, .sweepRun],
         [Spool.empty, ⟨some content, none⟩, ⟨none, some content⟩],
         cleanup_old_sounds now sounds fs.scanFails fs.removeFailAt⟩

/-- One argument is useful separately: whether the run raised. -/
def isOkE {α : Type} : Except String α → Bool
  | .ok _ => true
  | .error _ => false

/-- An HTTP response of the handler: `_json` sends a JSON body, while
`send_error` sends the framework's default error page with a reason text. -/
inductive HResp
  | jsonR (code : Nat) (body : List (String × String))
  | errPage (code : Nat) (msg : String)
deriving DecidableEq, Repr

/-- Status code of a response. -/
def HResp.code : HResp → Nat
  | .jsonR c _ => c
  | .errPage c _ => c

/-- Whether the body is one of the handler's JSON bodies. -/
def HResp.isJsonBody : HResp → Bool
  | .jsonR _ _ => true
  | .errPage _ _ => false

/-- A POST request as `do_POST` consumes it: the path, the
`X-Relay-Token` header if present, and the body's parse outcome
(`none` = `json.loads` raised). -/
structure PostReq where
  path : String
  relayHeader : Option String
  body : Option (List (String × JVal))
deriving DecidableEq, Repr

/-- `Handler.do_POST` (lines 124-155): path check, token-unset check
(`send_error(500, ...)`), token comparison (`send_error(403, ...)`), body
parse (`send_error(400, "Invalid JSON")`), field extraction with `str()`
and `.strip()`, empty-`to` check, then `originate_call` with its result as
`200` JSON or its exception as `500` JSON. -/
def do_POST (relayToken trunk caller_id : String) (req : PostReq)
    (uid : String) (fs : FailSpec) (sounds : List FsEntry) (now : Int) :
    HResp × List Effect :=
  if req.path ≠ "/call" then (.errPage 404 "Not Found", [])
  else if relayToken = "" then
    (.errPage 500 "FREEPBX_RELAY_TOKEN not set", [])
  else if req.relayHeader ≠ some relayToken then
    (.errPage 403 "Forbidden", [])
  else
    match req.body with
    | none => (.errPage 400 "Invalid JSON", [])
    | some b =>
      let to_ := pyStrip (pyStr (dictGet b "to" (.jstr "")))
      let message := pyStrip (pyStr (dictGet b "message" (.jstr "Alert from Akira")))
      if to_ = "" then (.errPage 400 "Missing 'to'", [])
      else
        let out := originate_call trunk caller_id to_ message uid fs sounds now
        match out.result with
        | .ok result => (.jsonR 200 result, out.effects)
        | .error e =>
          (.jsonR 500 [("status", "error"), ("reason", e)], out.effects)

/-- C7: the rendered call-file content is exactly the spec's seven
`key: value` lines, each newline-terminated, in order. -/
theorem call_file_content_lines (to_ trunk sound_name caller_id : String) :
    callFileContent to_ trunk sound_name caller_id =
      String.join ((specArtifactLines to_ trunk sound_name caller_id).map
        (fun l => l ++ "\n")) := by
  apply String.ext
  simp [callFileContent, specArtifactLines, String.join]

/-- C9: a prefix-matching regular file whose age equals
`MAX_SOUND_AGE_SECS` exactly is retained — deletion requires the age to be
strictly greater — and a sweep over just that file deletes nothing. -/
theorem sweep_retains_at_exact_threshold (now : Int) (name : String)
    (isF scanF : Bool) (failAt : Option Nat) :
    shouldDelete now ⟨name, isF, now - MAX_SOUND_AGE_SECS⟩ = false ∧
    cleanup_old_sounds now [⟨name, isF, now - MAX_SOUND_AGE_SECS⟩]
      scanF failAt = [] := by
  have h : shouldDelete now ⟨name, isF, now - MAX_SOUND_AGE_SECS⟩ = false := by
    simp [shouldDelete]
  refine ⟨h, ?_⟩
  cases scanF <;> simp [cleanup_old_sounds, cleanupLoop, h]

/-- C3: the uid is merely the wall-clock millisecond reading — two
originations whose clock readings fall in the same millisecond (here
microsecond readings 5000100 and 5000900) receive the SAME uid, violating
the claimed same-millisecond uniqueness. -/
theorem uid_collides_within_millisecond :
    makeUid 5000100 = makeUid 5000900 ∧ (5000100 : Nat) ≠ 5000900 := by
  constructor
  · rfl
  · decide

/-- C2: with a non-empty configured token, a POST to `/call` whose
`X-Relay-Token` header is absent or different is answered `403 Forbidden`
and produces no effects at all: no synthesis, no file writes, no artifact. -/
theorem auth_failure_no_side_effects (tok trunk caller_id : String)
    (req : PostReq) (uid : String) (fs : FailSpec) (sounds : List FsEntry)
    (now : Int) (htok : tok ≠ "") (hpath : req.path = "/call")
    (hhdr : req.relayHeader ≠ some tok) :
    do_POST tok trunk caller_id req uid fs sounds now =
      (.errPage 403 "Forbidden", []) := by
  simp [do_POST, hpath, htok, hhdr]

/-- Concrete instance of `auth_failure_no_side_effects`: header absent. -/
theorem auth_failure_no_side_effects_witness :
    do_POST "secret" "Twilio" "Akira <+15550000000>"
        ⟨"/call", none, some [("to", .jstr "+15551234567")]⟩ "123"
        FailSpec.allOk [] 0 =
      (.errPage 403 "Forbidden", []) :=
  auth_failure_no_side_effects "secret" "Twilio" "Akira <+15550000000>"
    ⟨"/call", none, some [("to", .jstr "+15551234567")]⟩ "123"
    FailSpec.allOk [] 0 (by decide) rfl (by decide)

/-- C6 counterexample: with the token unset, the handler answers through
`send_error` — status 500, but the body is the framework's error page, not
the JSON object `{"status":"error","reason":...}` the claim asserts. -/
theorem token_unset_not_json_cex :
    (do_POST "" "Twilio" "Akira <+15550000000>"
        ⟨"/call", some "x", some [("to", .jstr "+15551234567")]⟩ "123"
        FailSpec.allOk [] 0).1 =
      .errPage 500 "FREEPBX_RELAY_TOKEN not set" ∧
    (do_POST "" "Twilio" "Akira <+15550000000>"
        ⟨"/call", some "x", some [("to", .jstr "+15551234567")]⟩ "123"
        FailSpec.allOk [] 0).1.isJsonBody = false := by
  constructor
  · rfl
  · rfl

/-- C6 amended: every POST to `/call` processed with the shared token empty
is answered with status 500 (reason text `FREEPBX_RELAY_TOKEN not set`) via
`send_error` — the default error page, not the JSON error body — and has no
side effects. -/
theorem token_unset_always_500 (trunk caller_id : String)
    (hdr : Option String) (body : Option (List (String × JVal)))
    (uid : String) (fs : FailSpec) (sounds : List FsEntry) (now : Int) :
    do_POST "" trunk caller_id ⟨"/call", hdr, body⟩ uid fs sounds now =
      (.errPage 500 "FREEPBX_RELAY_TOKEN not set", []) := by
  simp [do_POST]

/-- C1: artifact publication is atomic.  In every spool-directory state a
concurrent scan could observe during `originate_call`, the final artifact
name is either absent or carries the complete rendered content — and it is
present only when the run succeeded (so on any failure before the rename,
including synthesis failure, the final name never appears); on success the
run ends with the artifact fully published and the temporary name gone. -/
theorem artifact_publication_atomic (trunk caller_id to_ msg uid : String)
    (fs : FailSpec) (sounds : List FsEntry) (now : Int) :
    ((originate_call trunk caller_id to_ msg uid fs sounds now).spoolTrace.all
      fun s =>
        s.callContent == none ||
          (s.callContent ==
              some (callFileContent to_ trunk ("akira-alert-" ++ uid) caller_id) &&
            isOkE (originate_call trunk caller_id to_ msg uid fs sounds now).result)) =
      true ∧
    (isOkE (originate_call trunk caller_id to_ msg uid fs sounds now).result = true →
      (originate_call trunk caller_id to_ msg uid fs sounds now).spoolTrace.getLast? =
        some ⟨none,
          some (callFileContent to_ trunk ("akira-alert-" ++ uid) caller_id)⟩) := by
  rcases fs with ⟨f1, f2, f3, f4, tw, c6, r7, s8, r9⟩
  cases f1 <;> cases f2 <;> cases f3 <;> cases r7 <;> cases tw <;>
    simp [originate_call, generate_tts, isOkE, Spool.empty]

/-- Concrete instance of `artifact_publication_atomic`: an all-successful
run ends with the artifact fully published. -/
theorem artifact_publication_atomic_witness :
    (originate_call "Twilio" "Akira <+15550000000>" "+15551234567"
        "Disk full" "123" FailSpec.allOk [] 0).spoolTrace.getLast? =
      some ⟨none,
        some (callFileContent "+15551234567" "Twilio" "akira-alert-123"
          "Akira <+15550000000>")⟩ :=
  (artifact_publication_atomic "Twilio" "Akira <+15550000000>" "+15551234567"
    "Disk full" "123" FailSpec.allOk [] 0).2 rfl

/-- C4 counterexample: a request in which flite and sox succeed but the
removal of the intermediate raw file raises is answered 500, not the claimed
200 — `os.remove(raw_path)` is outside any `try`, so its failure propagates. -/
theorem raw_remove_failure_not_200_cex :
    (do_POST "secret" "Twilio" "Akira <+15550000000>"
        ⟨"/call", some "secret", some [("to", .jstr "+15551234567")]⟩ "123"
        ⟨false, false, true, false, none, false, false, false, none⟩
        [] 0).1.code = 500 ∧
    (do_POST "secret" "Twilio" "Akira <+15550000000>"
        ⟨"/call", some "secret", some [("to", .jstr "+15551234567")]⟩ "123"
        ⟨false, false, true, false, none, false, false, false, none⟩
        [] 0).1.code ≠ 200 := by
  constructor
  · rfl
  · decide

/-- C4 amended: when both external programs succeed but deleting the raw
file fails, the exception propagates and the request fails with a 500 JSON
error body (only the ownership adjustments are best-effort). -/
theorem raw_remove_failure_propagates (tok trunk caller_id uid : String)
    (body : List (String × JVal)) (to_ : String) (sounds : List FsEntry)
    (now : Int) (htok : tok ≠ "")
    (hto : dictGet body "to" (.jstr "") = .jstr to_)
    (hne : pyStrip to_ ≠ "") :
    (do_POST tok trunk caller_id ⟨"/call", some tok, some body⟩ uid
        ⟨false, false, true, false, none, false, false, false, none⟩
        sounds now).1 =
      .jsonR 500 [("status", "error"), ("reason", "raw remove failed")] := by
  simp [do_POST, originate_call, generate_tts, hto, pyStr, htok, hne]

/-- Concrete instance of `raw_remove_failure_propagates`. -/
theorem raw_remove_failure_propagates_witness :
    (do_POST "secret" "Twilio" "Akira <+15550000000>"
        ⟨"/call", some "secret", some [("to", .jstr "+15551234567")]⟩ "123"
        ⟨false, false, true, false, none, false, false, false, none⟩
        [] 0).1 =
      .jsonR 500 [("status", "error"), ("reason", "raw remove failed")] :=
  raw_remove_failure_propagates "secret" "Twilio" "Akira <+15550000000>" "123"
    [("to", .jstr "+15551234567")] "+15551234567" [] 0 (by decide) rfl
    (by decide)

/-- C5 counterexample: a successful request's JSON body carries FOUR fields
— `status`, `to`, `sound` and additionally `call_file` — not exactly the
three the claim lists. -/
theorem success_body_has_call_file_cex :
    (do_POST "secret" "Twilio" "Akira <+15550000000>"
        ⟨"/call", some "secret", some [("to", .jstr "+15551234567")]⟩ "123"
        FailSpec.allOk [] 0).1 =
      .jsonR 200 [("status", "ok"), ("to", "+15551234567"),
        ("sound", "akira-alert-123"),
        ("call_file", "/var/spool/asterisk/outgoing/akira-123.call")] ∧
    ["status", "to", "sound", "call_file"] ≠ ["status", "to", "sound"] := by
  constructor
  · rfl
  · decide

/-- C5 amended: every successful POST `/call` is answered `200` with a JSON
body of exactly the four fields `status`, `to`, `sound` and `call_file`, the
last being the published artifact's path. -/
theorem success_response_fields (tok trunk caller_id uid : String)
    (body : List (String × JVal)) (to_ : String) (sounds : List FsEntry)
    (now : Int) (htok : tok ≠ "")
    (hto : dictGet body "to" (.jstr "") = .jstr to_)
    (hne : pyStrip to_ ≠ "") :
    (do_POST tok trunk caller_id ⟨"/call", some tok, some body⟩ uid
        FailSpec.allOk sounds now).1 =
      .jsonR 200 [("status", "ok"), ("to", pyStrip to_),
        ("sound", "akira-alert-" ++ uid),
        ("call_file", SPOOL_DIR ++ "/akira-" ++ uid ++ ".call")] := by
  simp [do_POST, originate_call, generate_tts, hto, pyStr, htok, hne,
    FailSpec.allOk]

/-- Concrete instance of `success_response_fields`. -/
theorem success_response_fields_witness :
    (do_POST "secret" "Twilio" "Akira <+15550000000>"
        ⟨"/call", some "secret", some [("to", .jstr "+15551234567")]⟩ "123"
        FailSpec.allOk [] 0).1 =
      .jsonR 200 [("status", "ok"), ("to", pyStrip "+15551234567"),
        ("sound", "akira-alert-" ++ "123"),
        ("call_file", SPOOL_DIR ++ "/akira-" ++ "123" ++ ".call")] :=
  success_response_fields "secret" "Twilio" "Akira <+15550000000>" "123"
    [("to", .jstr "+15551234567")] "+15551234567" [] 0 (by decide) rfl
    (by decide)

/-- Every name the sweep loop removes comes from a listed entry that
satisfies the deletion condition. -/
theorem cleanupLoop_sound (now : Int) :
    ∀ (l : List FsEntry) (failAt : Option Nat) (n : String),
      n ∈ cleanupLoop now l failAt →
      ∃ e ∈ l, e.name = n ∧ shouldDelete now e = true := by
  intro l
  induction l with
  | nil => intro failAt n hn; simp [cleanupLoop] at hn
  | cons e rest ih =>
    intro failAt n hn
    simp only [cleanupLoop] at hn
    by_cases h : shouldDelete now e
    · rw [if_pos h] at hn
      match failAt with
      | none =>
        rcases List.mem_cons.mp hn with rfl | htail
        · exact ⟨e, List.mem_cons_self e rest, rfl, h⟩
        · rcases ih none n htail with ⟨e', he', hn', hd'⟩
          exact ⟨e', List.mem_cons_of_mem e he', hn', hd'⟩
      | some 0 => simp at hn
      | some (k + 1) =>
        rcases List.mem_cons.mp hn with rfl | htail
        · exact ⟨e, List.mem_cons_self e rest, rfl, h⟩
        · rcases ih (some k) n htail with ⟨e', he', hn', hd'⟩
          exact ⟨e', List.mem_cons_of_mem e he', hn', hd'⟩
    · rw [if_neg h] at hn
      rcases ih failAt n hn with ⟨e', he', hn', hd'⟩
      exact ⟨e', List.mem_cons_of_mem e he', hn', hd'⟩

/-- A sweep in which no entry satisfies the deletion condition removes
nothing. -/
theorem cleanupLoop_noop (now : Int) :
    ∀ (l : List FsEntry) (failAt : Option Nat),
      (∀ e ∈ l, shouldDelete now e = false) →
      cleanupLoop now l failAt = [] := by
  intro l
  induction l with
  | nil => intro failAt _; rfl
  | cons e rest ih =>
    intro failAt h
    simp only [cleanupLoop]
    rw [if_neg (by simp [h e (List.mem_cons_self e rest)])]
    exact ih failAt fun e' he' => h e' (List.mem_cons_of_mem e he')

/-- C8: the Retention Sweeper (i) deletes only regular files carrying the
recognized name whose age strictly exceeds `MAX_SOUND_AGE_SECS` — hence
never a file at or below the threshold; (ii) is a no-op when nothing
matches; (iii) swallows every scan or per-deletion error, so an otherwise
successful origination still returns its `ok` result whatever the sweep's
failures. -/
theorem sweeper_contract (now : Int) (entries : List FsEntry) (scanF : Bool)
    (failAt : Option Nat) :
    (∀ n ∈ cleanup_old_sounds now entries scanF failAt,
      ∃ e ∈ entries, e.name = n ∧ shouldDelete now e = true) ∧
    ((∀ e ∈ entries, shouldDelete now e = false) →
      cleanup_old_sounds now entries scanF failAt = []) ∧
    (∀ trunk caller_id to_ msg uid : String,
      isOkE (originate_call trunk caller_id to_ msg uid
        { FailSpec.allOk with scanFails := scanF, removeFailAt := failAt }
        entries now).result = true) := by
  refine ⟨?_, ?_, ?_⟩
  · intro n hn
    unfold cleanup_old_sounds at hn
    by_cases hs : scanF
    · rw [if_pos hs] at hn; simp at hn
    · rw [if_neg hs] at hn
      exact cleanupLoop_sound now entries failAt n hn
  · intro h
    unfold cleanup_old_sounds
    by_cases hs : scanF
    · rw [if_pos hs]
    · rw [if_neg hs]; exact cleanupLoop_noop now entries failAt h
  · intro trunk caller_id to_ msg uid
    simp [originate_call, generate_tts, isOkE, FailSpec.allOk]

/-- Concrete instance of `sweeper_contract`: a clean directory sweep is a
no-op and an all-successful origination with a failing sweep still returns
`ok`. -/
theorem sweeper_contract_witness :
    cleanup_old_sounds 7200 [⟨"akira-alert-1.wav", true, 5400⟩] false
      (some 0) = [] ∧
    isOkE (originate_call "Twilio" "Akira <+15550000000>" "+15551234567"
      "Disk full" "123"
      { FailSpec.allOk with scanFails := false, removeFailAt := some 0 }
      [⟨"akira-alert-1.wav", true, 5400⟩] 7200).result = true :=
  ⟨(sweeper_contract 7200 [⟨"akira-alert-1.wav", true, 5400⟩] false
      (some 0)).2.1 (by decide),
   (sweeper_contract 7200 [⟨"akira-alert-1.wav", true, 5400⟩] false
      (some 0)).2.2 "Twilio" "Akira <+15550000000>" "+15551234567"
      "Disk full" "123"⟩

/-- C10: the default alert text is substituted only when the `message` key
is absent.  (i) With `message` present as a whitespace-only string, flite is
invoked with the empty string, not the default; (ii) with the key absent,
flite is invoked with `Alert from Akira`; (iii) non-string `to` and
`message` values are coerced with `str()` and accepted, not rejected. -/
theorem message_default_only_when_absent (tok trunk caller_id uid w dest :
    String) (sounds : List FsEntry) (now : Int) (htok : tok ≠ "")
    (hw : pyStrip w = "") (hdest : pyStrip dest ≠ "") :
    ((do_POST tok trunk caller_id
        ⟨"/call", some tok, some [("to", .jstr dest), ("message", .jstr w)]⟩
        uid FailSpec.allOk sounds now).2 =
      [.fliteRun "", .soxRun, .rawRemoved, .tmpWrite, .renamed, .sweepRun]) ∧
    ((do_POST tok trunk caller_id
        ⟨"/call", some tok, some [("to", .jstr dest)]⟩
        uid FailSpec.allOk sounds now).2 =
      [.fliteRun "Alert from Akira", .soxRun, .rawRemoved, .tmpWrite,
       .renamed, .sweepRun]) ∧
    ((do_POST tok trunk caller_id
        ⟨"/call", some tok,
         some [("to", .jint 15551234567), ("message", .jbool true)]⟩
        uid FailSpec.allOk sounds now).1 =
      .jsonR 200 [("status", "ok"), ("to", "15551234567"),
        ("sound", "akira-alert-" ++ uid),
        ("call_file", SPOOL_DIR ++ "/akira-" ++ uid ++ ".call")]) ∧
    ((do_POST tok trunk caller_id
        ⟨"/call", some tok,
         some [("to", .jint 15551234567), ("message", .jbool true)]⟩
        uid FailSpec.allOk sounds now).2 =
      [.fliteRun "True", .soxRun, .rawRemoved, .tmpWrite, .renamed,
       .sweepRun]) := by
  have h1 : pyStrip "Alert from Akira" = "Alert from Akira" := by decide
  have h2 : pyStrip (toString (15551234567 : Int)) = "15551234567" := by
    decide
  have h3 : pyStrip "True" = "True" := by decide
  have h4 : ("15551234567" : String) ≠ "" := by decide
  refine ⟨?_, ?_, ?_, ?_⟩ <;>
    simp [do_POST, originate_call, generate_tts, dictGet, pyStr, htok, hw,
      hdest, h1, h2, h3, h4, FailSpec.allOk]

/-- Concrete instance of `message_default_only_when_absent`: a two-space
message is synthesized as the empty string. -/
theorem message_default_only_when_absent_witness :
    (do_POST "secret" "Twilio" "Akira <+15550000000>"
        ⟨"/call", some "secret",
         some [("to", .jstr "+15551234567"), ("message", .jstr "  ")]⟩
        "123" FailSpec.allOk [] 0).2 =
      [.fliteRun "", .soxRun, .rawRemoved, .tmpWrite, .renamed, .sweepRun] :=
  (message_default_only_when_absent "secret" "Twilio" "Akira <+15550000000>"
    "123" "  " "+15551234567" [] 0 (by decide) (by decide) (by decide)).1
